import Mathlib

/-!
Verification of the entity layer of the NEO explorer (`src/models.py`):
the `NearEarthObject` and `CloseApproach` classes, their keyword-argument
constructors, and their derived accessors (`fullname`, `serialize`,
`time_str`, the human-readable and debug strings).

The Python code is shallowly embedded:

* Python runtime values that can appear as keyword-argument values are the
  inductive `PyVal` (`None`, `bool`, `int`, `float`, `str`).
* Python floats are `PFloat`: finite values are modelled as exact rationals
  (IEEE-754 rounding of decimal literals and overflow to infinity are not
  modelled), plus the distinguished `nan`, `inf` and `ninf` values.
* `**kwargs` is an association list `Kwargs`; `Kwargs.get` is `dict.get`,
  returning Python `None` when the key is absent.
* A constructor that can raise (via a failing `float(...)` coercion) is a
  function into `Option`: `Option.none` is an uncaught exception.
-/

set_option autoImplicit false

namespace NeoModels

/-- A Python float: an exact finite rational, or one of the non-finite
values `nan`, `inf`, `-inf`. -/
inductive PFloat : Type where
  | finite (q : ℚ)
  | nan
  | inf
  | ninf
deriving DecidableEq

/-- A Python runtime value, as can be supplied for a keyword argument of the
entity constructors in `src/models.py`. -/
inductive PyVal : Type where
  | none
  | bool (b : Bool)
  | int (n : ℤ)
  | float (f : PFloat)
  | str (s : String)
deriving DecidableEq

/-- Python truthiness (`bool(v)`): `None` is falsy, numbers are truthy unless
zero (`nan` and the infinities are truthy), strings are truthy unless empty. -/
def PyVal.truthy : PyVal → Bool
  | .none => false
  | .bool b => b
  | .int n => decide (n ≠ 0)
  | .float (.finite q) => decide (q ≠ 0)
  | .float _ => true
  | .str s => decide (s ≠ "")

/-- Python `==` on two floats: `nan` compares unequal to everything
(itself included); finite values compare as rationals. -/
def PFloat.eqNum : PFloat → PFloat → Bool
  | .finite q, .finite r => decide (q = r)
  | .inf, .inf => true
  | .ninf, .ninf => true
  | _, _ => false

/-- The numeric value of a Python object, when it is a number
(`bool` is a subtype of `int` in Python, so `True == 1`). -/
def PyVal.numVal : PyVal → Option PFloat
  | .bool b => some (.finite (if b then 1 else 0))
  | .int n => some (.finite (n : ℚ))
  | .float f => some f
  | _ => Option.none

/-- Python `==`: numbers compare by numeric value, strings by content,
`None` equals only `None`; values of unrelated types compare unequal. -/
def pyEq (a b : PyVal) : Bool :=
  match a.numVal, b.numVal with
  | some x, some y => x.eqNum y
  | _, _ =>
    match a, b with
    | .str s, .str t => decide (s = t)
    | .none, .none => true
    | _, _ => false

/-- The numeric value of a list of decimal digit characters. -/
def digitsToNat (cs : List Char) : Nat :=
  List.foldl (fun a c => 10 * a + (c.toNat - 48)) 0 cs

/-- Strip leading and trailing whitespace from a character list (the
whitespace stripping CPython's `float(s)` performs on its argument). -/
def stripWs (cs : List Char) : List Char :=
  ((cs.dropWhile Char.isWhitespace).reverse.dropWhile Char.isWhitespace).reverse

/-- Parse the mantissa part of a Python float literal: decimal digits with at
most one decimal point, and at least one digit (`"1"`, `"1."`, `".5"`,
`"1.5"`; not `"."` or `""`). -/
def parseDecBody (cs : List Char) : Option ℚ :=
  let ip := cs.takeWhile Char.isDigit
  match cs.drop ip.length with
  | [] => if ip.isEmpty then Option.none else some ((digitsToNat ip : ℚ))
  | c :: fr =>
    if c = '.' ∧ fr.all Char.isDigit ∧ (ip ≠ [] ∨ fr ≠ []) then
      some ((digitsToNat ip : ℚ) + (digitsToNat fr : ℚ) / ((10 : ℚ) ^ fr.length))
    else
      Option.none

/-- Parse the exponent part of a Python float literal: an optional sign
followed by at least one decimal digit. -/
def parseExpPart (cs : List Char) : Option ℤ :=
  let (sgn, ds) : Bool × List Char :=
    match cs with
    | c :: rest =>
      if c = '-' then (true, rest)
      else if c = '+' then (false, rest)
      else (false, cs)
    | [] => (false, [])
  if ds ≠ [] ∧ ds.all Char.isDigit then
    some (if sgn then -(digitsToNat ds : ℤ) else (digitsToNat ds : ℤ))
  else
    Option.none

/-- CPython string-to-float conversion (`float(s)`), on its common forms:
surrounding whitespace is stripped; an optional sign precedes either one of
the case-insensitive words `inf`, `infinity`, `nan`, or a decimal mantissa
with an optional `e`/`E` exponent.  (Underscore digit separators are not
modelled.)  `Option.none` is CPython's `ValueError`. -/
def parseFloat (s : String) : Option PFloat :=
  let cs := stripWs s.toList
  let (sgn, body) : Bool × List Char :=
    match cs with
    | c :: rest =>
      if c = '-' then (true, rest)
      else if c = '+' then (false, rest)
      else (false, cs)
    | [] => (false, [])
  let low := String.mk (body.map Char.toLower)
  if low = "inf" ∨ low = "infinity" then
    some (if sgn then PFloat.ninf else PFloat.inf)
  else if low = "nan" then
    some PFloat.nan
  else
    let mant := body.takeWhile (fun c => ¬ (c = 'e' ∨ c = 'E'))
    match body.drop mant.length with
    | [] =>
      (parseDecBody mant).map (fun m => PFloat.finite (if sgn then -m else m))
    | _ :: ecs =>
      match parseDecBody mant, parseExpPart ecs with
      | some m, some e =>
        some (PFloat.finite (let v := m * (10 : ℚ) ^ e; if sgn then -v else v))
      | _, _ => Option.none

/-- Python `float(v)` on an arbitrary value: numbers convert by value,
strings are parsed; anything else (here, `None`) is a `TypeError`,
modelled as `Option.none`. -/
def pyFloat : PyVal → Option PFloat
  | .none => Option.none
  | .bool b => some (.finite (if b then 1 else 0))
  | .int n => some (.finite (n : ℚ))
  | .float f => some f
  | .str s => parseFloat s

/-- Modelled from the spec: the repository's `helpers` module (not part of
the excerpt) works with Python `datetime` values; only the calendar fields
used by the two date helpers are modelled (Python constrains the year to
at most four digits). -/
structure Datetime : Type where
  year : Nat
  month : Nat
  day : Nat
  hour : Nat
  minute : Nat
deriving DecidableEq

/-- Modelled from the spec: `helpers.datetime_to_str` formats a timestamp
with minute-level precision (no seconds), as the fixed-width strftime
pattern `%Y-%m-%d %H:%M`. -/
def datetime_to_str (t : Datetime) : String :=
  String.mk [Nat.digitChar (t.year / 1000 % 10), Nat.digitChar (t.year / 100 % 10),
    Nat.digitChar (t.year / 10 % 10), Nat.digitChar (t.year % 10), '-',
    Nat.digitChar (t.month / 10 % 10), Nat.digitChar (t.month % 10), '-',
    Nat.digitChar (t.day / 10 % 10), Nat.digitChar (t.day % 10), ' ',
    Nat.digitChar (t.hour / 10 % 10), Nat.digitChar (t.hour % 10), ':',
    Nat.digitChar (t.minute / 10 % 10), Nat.digitChar (t.minute % 10)]

/-- The numeric month for a three-letter English month abbreviation
(the `%b` field of the NASA close-approach date format). -/
def monthOfAbbrev (cs : List Char) : Option Nat :=
  match String.mk cs with
  | "Jan" => some 1
  | "Feb" => some 2
  | "Mar" => some 3
  | "Apr" => some 4
  | "May" => some 5
  | "Jun" => some 6
  | "Jul" => some 7
  | "Aug" => some 8
  | "Sep" => some 9
  | "Oct" => some 10
  | "Nov" => some 11
  | "Dec" => some 12
  | _ => Option.none

/-- Parse the NASA calendar-date format `%Y-%b-%d %H:%M`
(for example `2020-Jan-01 12:00`). -/
def parseCd (cs : List Char) : Option Datetime :=
  let y := cs.takeWhile Char.isDigit
  match cs.drop y.length with
  | '-' :: r1 =>
    let mon := r1.takeWhile (fun c => c ≠ '-')
    match r1.drop mon.length with
    | '-' :: r2 =>
      let d := r2.takeWhile Char.isDigit
      match r2.drop d.length with
      | ' ' :: r3 =>
        let h := r3.takeWhile Char.isDigit
        match r3.drop h.length with
        | ':' :: r4 =>
          if y ≠ [] ∧ d ≠ [] ∧ h ≠ [] ∧ r4 ≠ [] ∧ r4.all Char.isDigit then
            (monthOfAbbrev mon).map
              (fun m => ⟨digitsToNat y, m, digitsToNat d, digitsToNat h, digitsToNat r4⟩)
          else Option.none
        | _ => Option.none
      | _ => Option.none
    | _ => Option.none
  | _ => Option.none

/-- Modelled from the spec: `helpers.cd_to_datetime` converts a
calendar-date string in the source file's format into a UTC timestamp; the
spec assigns it no failure behaviour (it is "called only when the input
field is present" and with data in the source format), so it is modelled as
total, with non-conforming input mapped to a fixed default timestamp. -/
def cd_to_datetime (v : PyVal) : Datetime :=
  match v with
  | .str s => (parseCd s.toList).getD ⟨1900, 1, 1, 0, 0⟩
  | _ => ⟨1900, 1, 1, 0, 0⟩


/-- Round a rational to an integer, ties to even (the rounding CPython's
fixed-point `format` applies to the exact value being formatted). -/
def roundHalfEven (q : ℚ) : ℤ :=
  let fl : ℤ := ⌊q⌋
  let fr : ℚ := q - (fl : ℚ)
  if fr < 1 / 2 then fl
  else if 1 / 2 < fr then fl + 1
  else if fl % 2 = 0 then fl else fl + 1

/-- Decimal digits of `n`, left-padded with zeros to width `w`. -/
def padZeros (w : Nat) (n : Nat) : String :=
  let s := Nat.repr n
  String.mk (List.replicate (w - s.length) '0') ++ s

/-- Python fixed-point float formatting, `format(x, ".<prec>f")` — the
`{:.3f}` and `{:.2f}` conversions of the `__str__`/`__repr__` f-strings.
Non-finite values print as `nan`/`inf`/`-inf`. -/
def PFloat.formatFixed (prec : Nat) : PFloat → String
  | .nan => "nan"
  | .inf => "inf"
  | .ninf => "-inf"
  | .finite q =>
    let n := roundHalfEven (q * (10 : ℚ) ^ prec)
    let sign := if n < 0 ∨ (n = 0 ∧ q < 0) then "-" else ""
    let m := n.natAbs
    if prec = 0 then sign ++ Nat.repr m
    else sign ++ Nat.repr (m / 10 ^ prec) ++ "." ++ padZeros prec (m % 10 ^ prec)

/-- Python's rendering of a finite float value.  An integral value prints
with a trailing `.0`, as in Python.  (For non-integral values CPython prints
the shortest decimal string that round-trips through the IEEE double; since
finite floats are modelled as exact rationals, that is simplified here to
17-digit fixed-point formatting.) -/
def ratStr (q : ℚ) : String :=
  if q.den = 1 then Int.repr q.num ++ ".0"
  else PFloat.formatFixed 17 (.finite q)

/-- Python `str(v)`, as applied by the f-strings in `src/models.py`. -/
def pyStr : PyVal → String
  | .none => "None"
  | .bool true => "True"
  | .bool false => "False"
  | .int n => Int.repr n
  | .str s => s
  | .float .nan => "nan"
  | .float .inf => "inf"
  | .float .ninf => "-inf"
  | .float (.finite q) => ratStr q

/-- A single-quote character as a string (the quotes Python `repr` places
around a string value). -/
def sq : String := String.mk [Char.ofNat 39]

/-- Python `repr(v)`, as applied by the `!r` conversions in `src/models.py`:
strings are quoted (escape sequences are not modelled; no value formatted by
this code contains a quote), and for `None`, booleans and numbers `repr`
agrees with `str`. -/
def pyRepr : PyVal → String
  | .str s => sq ++ s ++ sq
  | v => pyStr v

/-- The property the spec's data-model invariant asserts of a stored
diameter: a non-negative finite value or NaN (no negative value, no other
non-finite value). -/
def PFloat.nonnegFiniteOrNan : PFloat → Bool
  | .finite q => decide (0 ≤ q)
  | .nan => true
  | .inf => false
  | .ninf => false

/-- A `**kwargs` dictionary: an association list of keyword names to
values.  (Python keyword names are unique, so lookup order is immaterial.) -/
abbrev Kwargs : Type := List (String × PyVal)

/-- Python `kwargs.get(key)`: the stored value, or `None` when absent. -/
def Kwargs.get : Kwargs → String → PyVal
  | [], _ => PyVal.none
  | (k, v) :: rest, s => if k = s then v else Kwargs.get rest s

mutual
/-- The attribute state of a `NearEarthObject` instance
(`src/models.py:23`): `designation`, `name`, `diameter`, `hazardous`,
`approaches`. -/
inductive NearEarthObject : Type where
  | mk : PyVal → PyVal → PFloat → Bool → List CloseApproach → NearEarthObject

/-- The attribute state of a `CloseApproach` instance (`src/models.py:80`):
`_designation`, `time`, `distance`, `velocity`, `neo`. -/
inductive CloseApproach : Type where
  | mk : PyVal → Option Datetime → PFloat → PFloat → Option NearEarthObject → CloseApproach
end

def NearEarthObject.designation : NearEarthObject → PyVal
  | .mk d _ _ _ _ => d

def NearEarthObject.name : NearEarthObject → PyVal
  | .mk _ n _ _ _ => n

def NearEarthObject.diameter : NearEarthObject → PFloat
  | .mk _ _ dia _ _ => dia

def NearEarthObject.hazardous : NearEarthObject → Bool
  | .mk _ _ _ h _ => h

def NearEarthObject.approaches : NearEarthObject → List CloseApproach
  | .mk _ _ _ _ a => a

def CloseApproach._designation : CloseApproach → PyVal
  | .mk d _ _ _ _ => d

def CloseApproach.time : CloseApproach → Option Datetime
  | .mk _ t _ _ _ => t

def CloseApproach.distance : CloseApproach → PFloat
  | .mk _ _ dst _ _ => dst

def CloseApproach.velocity : CloseApproach → PFloat
  | .mk _ _ _ v _ => v

def CloseApproach.neo : CloseApproach → Option NearEarthObject
  | .mk _ _ _ _ n => n

/-- `NearEarthObject.__init__` (`src/models.py:36-52`).  `Option.none` is an
uncaught exception escaping the constructor (only the `float(...)` coercion
of a truthy `diameter` can raise). -/
def NearEarthObject.init (kwargs : Kwargs) : Option NearEarthObject :=
  match (if (kwargs.get "diameter").truthy then pyFloat (kwargs.get "diameter")
         else some PFloat.nan) with
  | Option.none => Option.none
  | some dia =>
    some (NearEarthObject.mk
      (if (kwargs.get "designation").truthy then kwargs.get "designation" else PyVal.str "")
      (if (kwargs.get "name").truthy then kwargs.get "name" else PyVal.none)
      dia
      (pyEq (kwargs.get "hazardous") (PyVal.str "Y"))
      [])

/-- `CloseApproach.__init__` (`src/models.py:94-114`).  `Option.none` is an
uncaught exception escaping the constructor (only the `float(...)` coercions
of truthy `distance`/`velocity` can raise; `cd_to_datetime` is modelled as
total, per the spec's contract for it). -/
def CloseApproach.init (kwargs : Kwargs) : Option CloseApproach :=
  match (if (kwargs.get "distance").truthy then pyFloat (kwargs.get "distance")
         else some (PFloat.finite 0)) with
  | Option.none => Option.none
  | some dst =>
    match (if (kwargs.get "velocity").truthy then pyFloat (kwargs.get "velocity")
           else some (PFloat.finite 0)) with
    | Option.none => Option.none
    | some vel =>
      some (CloseApproach.mk
        (if (kwargs.get "designation").truthy then kwargs.get "designation" else PyVal.str "")
        (if (kwargs.get "time").truthy then some (cd_to_datetime (kwargs.get "time"))
         else Option.none)
        dst
        vel
        Option.none)

/-- `NearEarthObject.fullname` (`src/models.py:54-57`). -/
def NearEarthObject.fullname (n : NearEarthObject) : String :=
  if n.name.truthy then pyStr n.designation ++ " (" ++ pyStr n.name ++ ")"
  else pyStr n.designation

/-- The dictionary produced by `NearEarthObject.serialize`: a structure with
exactly the four keys `designation`, `name`, `diameter_km`,
`potentially_hazardous`. -/
structure NeoSerialize : Type where
  designation : String
  name : String
  diameter_km : PFloat
  potentially_hazardous : Bool
deriving DecidableEq

/-- `NearEarthObject.serialize` (`src/models.py:59-65`). -/
def NearEarthObject.serialize (n : NearEarthObject) : NeoSerialize :=
  { designation := pyStr n.designation
    name := if n.name.truthy then pyStr n.name else ""
    diameter_km := n.diameter
    potentially_hazardous := n.hazardous }

/-- `NearEarthObject.__str__` (`src/models.py:67-72`). -/
def NearEarthObject.str_ (n : NearEarthObject) : String :=
  "NEO " ++ n.fullname ++ " has a diameter of " ++ PFloat.formatFixed 3 n.diameter
    ++ " km and " ++ (if n.hazardous then "is" else "is not") ++ " potentially hazardous."

/-- `NearEarthObject.__repr__` (`src/models.py:74-77`). -/
def NearEarthObject.repr_ (n : NearEarthObject) : String :=
  "NearEarthObject(designation=" ++ pyRepr n.designation ++ ", name=" ++ pyRepr n.name
    ++ ", diameter=" ++ PFloat.formatFixed 3 n.diameter ++ ", hazardous="
    ++ (if n.hazardous then "True" else "False") ++ ")"

/-- `CloseApproach.time_str` (`src/models.py:116-129`). -/
def CloseApproach.time_str (c : CloseApproach) : String :=
  match c.time with
  | some t => datetime_to_str t
  | Option.none => "n/a date"

/-- `CloseApproach.fullname` (`src/models.py:131-134`); an object reference
is always truthy in Python, so `if self.neo` tests whether `neo` is set. -/
def CloseApproach.fullname (c : CloseApproach) : String :=
  match c.neo with
  | some n => n.fullname
  | Option.none => pyStr c._designation

/-- The dictionary produced by `CloseApproach.serialize`: a structure with
exactly the four keys `datetime_utc`, `distance_au`, `velocity_km_s`,
`neo`, the last holding the linked object's own serialization, nested. -/
structure CaSerialize : Type where
  datetime_utc : String
  distance_au : PFloat
  velocity_km_s : PFloat
  neo : NeoSerialize
deriving DecidableEq

/-- `CloseApproach.serialize` (`src/models.py:136-142`).  When `self.neo` is
still `None`, evaluating `self.neo.serialize` raises `AttributeError`;
`Option.none` models that exception.  A `datetime` object is always truthy,
so `if self.time` tests whether `time` is set. -/
def CloseApproach.serialize (c : CloseApproach) : Option CaSerialize :=
  match c.neo with
  | Option.none => Option.none
  | some n =>
    some { datetime_utc := match c.time with
             | some t => datetime_to_str t
             | Option.none => ""
           distance_au := c.distance
           velocity_km_s := c.velocity
           neo := n.serialize }

/-- `CloseApproach.__str__` (`src/models.py:144-148`). -/
def CloseApproach.str_ (c : CloseApproach) : String :=
  "On " ++ c.time_str ++ ", " ++ sq ++ c.fullname ++ sq
    ++ " approaches Earth at a distance of " ++ PFloat.formatFixed 2 c.distance
    ++ " au and a velocity of " ++ PFloat.formatFixed 2 c.velocity ++ " km/s."

/-- `CloseApproach.__repr__` (`src/models.py:150-153`). -/
def CloseApproach.repr_ (c : CloseApproach) : String :=
  "CloseApproach(time=" ++ sq ++ c.time_str ++ sq ++ ", distance="
    ++ PFloat.formatFixed 2 c.distance ++ ", velocity=" ++ PFloat.formatFixed 2 c.velocity
    ++ ", neo=" ++ (match c.neo with | some n => n.repr_ | Option.none => "None") ++ ")"

/-- The entity built by `NearEarthObject(designation="2000 AB", name=None,
diameter=None, hazardous="N")`. -/
def neo2000AB : NearEarthObject :=
  .mk (.str "2000 AB") .none .nan false []

/-- The entity built by `NearEarthObject(designation="433", name="Eros")`. -/
def neo433Eros : NearEarthObject :=
  .mk (.str "433") (.str "Eros") .nan false []

/-- The entity built by `NearEarthObject()` (all fields defaulted). -/
def neoDefault : NearEarthObject :=
  .mk (.str "") .none .nan false []

/-- The entity built by `CloseApproach()` (all fields defaulted). -/
def caDefault : CloseApproach :=
  .mk (.str "") Option.none (.finite 0) (.finite 0) Option.none

/-- A close approach with its `time` set and its `neo` reference linked to
`neo433Eros` (the state after the external assembly step). -/
def caLinked : CloseApproach :=
  .mk (.str "433") (some ⟨2020, 1, 1, 12, 0⟩) (.finite 1) (.finite 2) (some neo433Eros)

/-- A close approach with a designation but no `time` and no linked `neo`
(the state right after construction). -/
def caUnlinked : CloseApproach :=
  .mk (.str "2000 AB") Option.none (.finite 0) (.finite 0) Option.none

example : pyFloat (PyVal.str "abc") = Option.none := by decide
example : pyFloat (PyVal.str "") = Option.none := by decide
example : pyFloat (PyVal.str "17") = some (PFloat.finite 17) := by decide
example : pyFloat (PyVal.bool true) = some (PFloat.finite 1) := by decide
example : (PyVal.str "0").truthy = true := by decide
example : (PyVal.int 0).truthy = false := by decide
example : pyEq (PyVal.bool true) (PyVal.str "Y") = false := by decide
example : pyEq (PyVal.str "Y") (PyVal.str "Y") = true := by decide
example : cd_to_datetime (PyVal.str "2020-Jan-01 12:00") = ⟨2020, 1, 1, 12, 0⟩ := by decide
example : datetime_to_str ⟨2020, 1, 1, 12, 0⟩ = "2020-01-01 12:00" := by decide

/-- Every field of a `NearEarthObject` produced by `__init__`, in terms of
the keyword arguments supplied. -/
theorem neo_init_fields (k : Kwargs) (n : NearEarthObject)
    (h : NearEarthObject.init k = some n) :
    n.designation
        = (if (k.get "designation").truthy then k.get "designation" else PyVal.str "") ∧
      n.name = (if (k.get "name").truthy then k.get "name" else PyVal.none) ∧
      (if (k.get "diameter").truthy then pyFloat (k.get "diameter") else some PFloat.nan)
        = some n.diameter ∧
      n.hazardous = pyEq (k.get "hazardous") (PyVal.str "Y") ∧
      n.approaches = [] := by
  unfold NearEarthObject.init at h
  cases hd : (if (k.get "diameter").truthy then pyFloat (k.get "diameter")
      else some PFloat.nan) with
  | none => rw [hd] at h; exact absurd h (by simp)
  | some dia =>
    rw [hd] at h
    injection h with h
    subst h
    exact ⟨rfl, rfl, rfl, rfl, rfl⟩

/-- `NearEarthObject.__init__` raises exactly when the `float` coercion of a
truthy `diameter` argument fails. -/
theorem neo_init_eq_none (k : Kwargs) :
    NearEarthObject.init k = Option.none ↔
      (k.get "diameter").truthy = true ∧ pyFloat (k.get "diameter") = Option.none := by
  unfold NearEarthObject.init
  by_cases ht : (k.get "diameter").truthy
  · cases hp : pyFloat (k.get "diameter") <;> simp [ht, hp]
  · simp [ht]

/-- Every field of a `CloseApproach` produced by `__init__`, in terms of
the keyword arguments supplied. -/
theorem ca_init_fields (k : Kwargs) (c : CloseApproach)
    (h : CloseApproach.init k = some c) :
    c._designation
        = (if (k.get "designation").truthy then k.get "designation" else PyVal.str "") ∧
      c.time = (if (k.get "time").truthy then some (cd_to_datetime (k.get "time"))
        else Option.none) ∧
      (if (k.get "distance").truthy then pyFloat (k.get "distance")
        else some (PFloat.finite 0)) = some c.distance ∧
      (if (k.get "velocity").truthy then pyFloat (k.get "velocity")
        else some (PFloat.finite 0)) = some c.velocity ∧
      c.neo = Option.none := by
  unfold CloseApproach.init at h
  cases hd : (if (k.get "distance").truthy then pyFloat (k.get "distance")
      else some (PFloat.finite 0)) with
  | none => rw [hd] at h; exact absurd h (by simp)
  | some dst =>
    rw [hd] at h
    cases hv : (if (k.get "velocity").truthy then pyFloat (k.get "velocity")
        else some (PFloat.finite 0)) with
    | none => rw [hv] at h; exact absurd h (by simp)
    | some vel =>
      rw [hv] at h
      injection h with h
      subst h
      exact ⟨rfl, rfl, rfl, rfl, rfl⟩

/-- `CloseApproach.__init__` raises exactly when the `float` coercion of a
truthy `distance` or `velocity` argument fails. -/
theorem ca_init_eq_none (k : Kwargs) :
    CloseApproach.init k = Option.none ↔
      ((k.get "distance").truthy = true ∧ pyFloat (k.get "distance") = Option.none) ∨
        ((k.get "velocity").truthy = true ∧ pyFloat (k.get "velocity") = Option.none) := by
  unfold CloseApproach.init
  by_cases ht : (k.get "distance").truthy
  · cases hp : pyFloat (k.get "distance") with
    | none => simp [ht, hp]
    | some dst =>
      by_cases ht2 : (k.get "velocity").truthy
      · cases hp2 : pyFloat (k.get "velocity") <;> simp [ht, hp, ht2, hp2]
      · simp [ht, hp, ht2]
  · by_cases ht2 : (k.get "velocity").truthy
    · cases hp2 : pyFloat (k.get "velocity") <;> simp [ht, ht2, hp2]
    · simp [ht, ht2]

/-- `pyEq` against the literal string `"Y"` holds only for that exact
string. -/
theorem pyEq_str_Y (v : PyVal) : pyEq v (PyVal.str "Y") = true ↔ v = PyVal.str "Y" := by
  cases v <;> simp [pyEq, PyVal.numVal, PFloat.eqNum]

/-- An initialized `name` attribute is either `None` or truthy; in
particular it is never the empty string. -/
theorem NearEarthObject.init_name_cases (k : Kwargs) (n : NearEarthObject)
    (h : NearEarthObject.init k = some n) :
    n.name = PyVal.none ∨ n.name.truthy = true := by
  obtain ⟨-, hn, -⟩ := neo_init_fields k n h
  by_cases ht : (k.get "name").truthy
  · right; rw [hn, if_pos ht]; exact ht
  · left; rw [hn, if_neg ht]

/-- The formatted timestamp is fixed-width. -/
theorem datetime_to_str_length (t : Datetime) : (datetime_to_str t).length = 16 := rfl

/-- The formatted timestamp is never the `"n/a date"` placeholder. -/
theorem datetime_to_str_ne_placeholder (t : Datetime) : datetime_to_str t ≠ "n/a date" := by
  intro h
  have hl := congrArg String.length h
  rw [datetime_to_str_length] at hl
  exact absurd hl (by decide)

/-- The formatted timestamp is never empty. -/
theorem datetime_to_str_ne_empty (t : Datetime) : datetime_to_str t ≠ "" := by
  intro h
  have hl := congrArg String.length h
  rw [datetime_to_str_length] at hl
  exact absurd hl (by decide)

/-- C1: for every construction of a `NearEarthObject`, the stored
`hazardous` flag is true if and only if the raw `hazardous` input value is
exactly the string `"Y"` (case-sensitive, exact match); any other value —
absent, `"N"`, lowercase `"y"`, boolean `True` — yields false. -/
theorem neo_hazardous_iff_exact_Y (k : Kwargs) (n : NearEarthObject)
    (h : NearEarthObject.init k = some n) :
    n.hazardous = true ↔ k.get "hazardous" = PyVal.str "Y" := by
  obtain ⟨-, -, -, hh, -⟩ := neo_init_fields k n h
  rw [hh]
  exact pyEq_str_Y _

theorem neo_hazardous_iff_exact_Y_witness :
    ((NearEarthObject.mk (PyVal.str "") PyVal.none PFloat.nan true []).hazardous = true
      ↔ Kwargs.get [("hazardous", PyVal.str "Y")] "hazardous" = PyVal.str "Y") :=
  neo_hazardous_iff_exact_Y [("hazardous", PyVal.str "Y")]
    (NearEarthObject.mk (PyVal.str "") PyVal.none PFloat.nan true []) rfl

/-- C2: for every construction of a `NearEarthObject`, a truthy `diameter`
input is stored as its `float` coercion; an absent or falsy one (`None`,
empty string, numeric zero) is stored as NaN. -/
theorem neo_diameter_coercion (k : Kwargs) (n : NearEarthObject)
    (h : NearEarthObject.init k = some n) :
    ((k.get "diameter").truthy = true → pyFloat (k.get "diameter") = some n.diameter) ∧
      ((k.get "diameter").truthy = false → n.diameter = PFloat.nan) := by
  obtain ⟨-, -, hd, -⟩ := neo_init_fields k n h
  constructor
  · intro ht
    rw [if_pos ht] at hd
    exact hd
  · intro ht
    rw [if_neg (by simp [ht])] at hd
    injection hd with hd
    exact hd.symm

theorem neo_diameter_coercion_witness :
    ((Kwargs.get [("diameter", PyVal.int 0)] "diameter").truthy = true →
        pyFloat (Kwargs.get [("diameter", PyVal.int 0)] "diameter")
          = some (NearEarthObject.mk (PyVal.str "") PyVal.none PFloat.nan false []).diameter) ∧
      ((Kwargs.get [("diameter", PyVal.int 0)] "diameter").truthy = false →
        (NearEarthObject.mk (PyVal.str "") PyVal.none PFloat.nan false []).diameter
          = PFloat.nan) :=
  neo_diameter_coercion [("diameter", PyVal.int 0)]
    (NearEarthObject.mk (PyVal.str "") PyVal.none PFloat.nan false []) rfl

/-- C3 counterexample: constructing a `NearEarthObject` with the numeric
diameter input `-1.0` stores the negative diameter `-1.0`, so the stored
diameter is not always a non-negative finite number or NaN. -/
theorem neo_diameter_nonneg_counterexample :
    NearEarthObject.init [("diameter", PyVal.float (PFloat.finite (-1)))]
        = some (NearEarthObject.mk (PyVal.str "") PyVal.none (PFloat.finite (-1)) false []) ∧
      PFloat.nonnegFiniteOrNan
          (NearEarthObject.mk (PyVal.str "") PyVal.none (PFloat.finite (-1)) false []).diameter
        = false := by
  exact ⟨rfl, by decide⟩

/-- C3 amended: for every successfully constructed `NearEarthObject`, the
stored diameter is either NaN or exactly the `float` coercion of the
`diameter` input; the constructor performs no range check, so a negative or
non-finite coerced input value is stored as-is. -/
theorem neo_diameter_unchecked (k : Kwargs) (n : NearEarthObject)
    (h : NearEarthObject.init k = some n) :
    n.diameter = PFloat.nan ∨ pyFloat (k.get "diameter") = some n.diameter := by
  obtain ⟨-, -, hd, -⟩ := neo_init_fields k n h
  by_cases ht : (k.get "diameter").truthy = true
  · right
    rw [if_pos ht] at hd
    exact hd
  · left
    rw [if_neg ht] at hd
    injection hd with hd
    exact hd.symm

/-- C4: `CloseApproach.serialize` on an entity whose `neo` reference is
still unset fails (the `self.neo.serialize` access raises) rather than
returning a mapping; when `neo` is set it returns a mapping whose `neo` key
is the linked object's own `serialize` mapping, nested. -/
theorem ca_serialize_neo_required (c : CloseApproach) :
    (c.neo = Option.none → c.serialize = Option.none) ∧
      (∀ m, c.neo = some m →
        c.serialize = some { datetime_utc := match c.time with
                               | some t => datetime_to_str t
                               | Option.none => ""
                             distance_au := c.distance
                             velocity_km_s := c.velocity
                             neo := m.serialize }) := by
  obtain ⟨d, t, dst, v, ne⟩ := c
  cases ne with
  | none =>
    refine ⟨fun _ => rfl, fun m hm => ?_⟩
    simp [CloseApproach.neo] at hm
  | some m0 =>
    refine ⟨fun hc => ?_, fun m hm => ?_⟩
    · simp [CloseApproach.neo] at hc
    · have hm0 : m0 = m := by simpa [CloseApproach.neo] using hm
      subst hm0
      rfl

theorem ca_serialize_neo_required_witness :
    caUnlinked.serialize = Option.none ∧
      caLinked.serialize
        = some { datetime_utc := "2020-01-01 12:00"
                 distance_au := PFloat.finite 1
                 velocity_km_s := PFloat.finite 2
                 neo := { designation := "433", name := "Eros", diameter_km := PFloat.nan,
                          potentially_hazardous := false } } :=
  ⟨(ca_serialize_neo_required caUnlinked).1 rfl,
    (ca_serialize_neo_required caLinked).2 neo433Eros rfl⟩

/-- C5: `NearEarthObject.serialize` is a flat mapping with exactly the keys
`designation` (the `str` of the stored designation), `name` (the stored
name, empty string when it is `None`), `diameter_km` (the stored float,
possibly NaN) and `potentially_hazardous` (the stored bool); the object
constructed from designation `"2000 AB"`, name `None`, diameter `None`,
hazardous `"N"` serializes to
`{designation: "2000 AB", name: "", diameter_km: NaN,
potentially_hazardous: False}`, and the object with designation `"433"` and
name `"Eros"` has fullname `"433 (Eros)"`. -/
theorem neo_serialize_contract :
    (∀ k n, NearEarthObject.init k = some n →
        n.serialize.designation = pyStr n.designation ∧
          (n.name = PyVal.none → n.serialize.name = "") ∧
          (n.name ≠ PyVal.none → n.serialize.name = pyStr n.name) ∧
          n.serialize.diameter_km = n.diameter ∧
          n.serialize.potentially_hazardous = n.hazardous) ∧
      NearEarthObject.init [("designation", PyVal.str "2000 AB"), ("name", PyVal.none),
          ("diameter", PyVal.none), ("hazardous", PyVal.str "N")] = some neo2000AB ∧
      neo2000AB.serialize
        = { designation := "2000 AB", name := "", diameter_km := PFloat.nan,
            potentially_hazardous := false } ∧
      NearEarthObject.init [("designation", PyVal.str "433"), ("name", PyVal.str "Eros")]
        = some neo433Eros ∧
      neo433Eros.fullname = "433 (Eros)" := by
  refine ⟨?_, rfl, rfl, rfl, rfl⟩
  intro k n h
  refine ⟨rfl, ?_, ?_, rfl, rfl⟩
  · intro hn
    simp [NearEarthObject.serialize, hn, PyVal.truthy]
  · intro hn
    rcases NearEarthObject.init_name_cases k n h with h0 | ht
    · exact absurd h0 hn
    · simp [NearEarthObject.serialize, ht]

theorem neo_serialize_contract_witness :
    neo2000AB.serialize.designation = pyStr neo2000AB.designation ∧
      (neo2000AB.name = PyVal.none → neo2000AB.serialize.name = "") ∧
      (neo2000AB.name ≠ PyVal.none → neo2000AB.serialize.name = pyStr neo2000AB.name) ∧
      neo2000AB.serialize.diameter_km = neo2000AB.diameter ∧
      neo2000AB.serialize.potentially_hazardous = neo2000AB.hazardous :=
  neo_serialize_contract.1 [("designation", PyVal.str "2000 AB"), ("name", PyVal.none),
    ("diameter", PyVal.none), ("hazardous", PyVal.str "N")] neo2000AB rfl

/-- C6: for both entities, an absent or falsy `designation` input is stored
as the empty string (never `None`); for the `NearEarthObject`, a falsy or
absent `name` is stored as `None`, any truthy `name` is stored exactly as
provided, and the empty string is never stored as a name. -/
theorem designation_name_normalization :
    (∀ k n, NearEarthObject.init k = some n →
        ((k.get "designation").truthy = false → n.designation = PyVal.str "") ∧
          ((k.get "name").truthy = false → n.name = PyVal.none) ∧
          ((k.get "name").truthy = true → n.name = k.get "name") ∧
          n.name ≠ PyVal.str "") ∧
      (∀ k c, CloseApproach.init k = some c →
        ((k.get "designation").truthy = false → c._designation = PyVal.str "")) := by
  constructor
  · intro k n h
    obtain ⟨hdsg, hn, -⟩ := neo_init_fields k n h
    refine ⟨?_, ?_, ?_, ?_⟩
    · intro ht
      rw [hdsg, if_neg (by simp [ht])]
    · intro ht
      rw [hn, if_neg (by simp [ht])]
    · intro ht
      rw [hn, if_pos ht]
    · rcases NearEarthObject.init_name_cases k n h with h0 | ht
      · simp [h0]
      · intro hc
        rw [hc] at ht
        exact absurd ht (by decide)
  · intro k c h
    obtain ⟨hdsg, -⟩ := ca_init_fields k c h
    intro ht
    rw [hdsg, if_neg (by simp [ht])]

theorem designation_name_normalization_witness :
    neoDefault.designation = PyVal.str "" ∧ neoDefault.name = PyVal.none ∧
      caDefault._designation = PyVal.str "" :=
  ⟨(designation_name_normalization.1 [] neoDefault rfl).1 rfl,
    (designation_name_normalization.1 [] neoDefault rfl).2.1 rfl,
    designation_name_normalization.2 [] caDefault rfl rfl⟩

/-- C7: regardless of the keyword inputs supplied (an explicit `approaches`
or `neo` argument included), a newly constructed `NearEarthObject` has an
empty `approaches` sequence and a newly constructed `CloseApproach` has
`neo` equal to `None`. -/
theorem fresh_entities_unlinked :
    (∀ k n, NearEarthObject.init k = some n → n.approaches = []) ∧
      (∀ k c, CloseApproach.init k = some c → c.neo = Option.none) := by
  constructor
  · intro k n h
    exact (neo_init_fields k n h).2.2.2.2
  · intro k c h
    exact (ca_init_fields k c h).2.2.2.2

theorem fresh_entities_unlinked_witness :
    neoDefault.approaches = [] ∧ caDefault.neo = Option.none :=
  ⟨fresh_entities_unlinked.1 [("approaches", PyVal.str "junk")] neoDefault rfl,
    fresh_entities_unlinked.2 [("neo", PyVal.str "junk")] caDefault rfl⟩

theorem neo_diameter_unchecked_witness :
    (NearEarthObject.mk (PyVal.str "") PyVal.none (PFloat.finite (-1)) false []).diameter
        = PFloat.nan ∨
      pyFloat (Kwargs.get [("diameter", PyVal.float (PFloat.finite (-1)))] "diameter")
        = some (NearEarthObject.mk (PyVal.str "") PyVal.none
            (PFloat.finite (-1)) false []).diameter :=
  neo_diameter_unchecked [("diameter", PyVal.float (PFloat.finite (-1)))]
    (NearEarthObject.mk (PyVal.str "") PyVal.none (PFloat.finite (-1)) false []) rfl

/-- C8: construction of either entity raises if and only if a numeric field
(`diameter`, `distance` or `velocity`) is given a truthy value whose `float`
coercion fails; absent or falsy numeric fields never raise and are silently
defaulted — `distance` and `velocity` to `0.0`, `diameter` to NaN. -/
theorem init_error_conditions :
    (∀ k, NearEarthObject.init k = Option.none ↔
        (k.get "diameter").truthy = true ∧ pyFloat (k.get "diameter") = Option.none) ∧
      (∀ k, CloseApproach.init k = Option.none ↔
        ((k.get "distance").truthy = true ∧ pyFloat (k.get "distance") = Option.none) ∨
          ((k.get "velocity").truthy = true ∧ pyFloat (k.get "velocity") = Option.none)) ∧
      (∀ k n, NearEarthObject.init k = some n →
        (k.get "diameter").truthy = false → n.diameter = PFloat.nan) ∧
      (∀ k c, CloseApproach.init k = some c →
        ((k.get "distance").truthy = false → c.distance = PFloat.finite 0) ∧
          ((k.get "velocity").truthy = false → c.velocity = PFloat.finite 0)) := by
  refine ⟨neo_init_eq_none, ca_init_eq_none, ?_, ?_⟩
  · intro k n h ht
    obtain ⟨-, -, hd, -⟩ := neo_init_fields k n h
    rw [if_neg (by simp [ht])] at hd
    injection hd with hd
    exact hd.symm
  · intro k c h
    obtain ⟨-, -, hd, hv, -⟩ := ca_init_fields k c h
    constructor
    · intro ht
      rw [if_neg (by simp [ht])] at hd
      injection hd with hd
      exact hd.symm
    · intro ht
      rw [if_neg (by simp [ht])] at hv
      injection hv with hv
      exact hv.symm

theorem init_error_conditions_witness :
    NearEarthObject.init [("diameter", PyVal.str "twelve")] = Option.none ∧
      caDefault.distance = PFloat.finite 0 ∧ caDefault.velocity = PFloat.finite 0 ∧
      neoDefault.diameter = PFloat.nan :=
  ⟨(init_error_conditions.1 [("diameter", PyVal.str "twelve")]).mpr ⟨rfl, rfl⟩,
    (init_error_conditions.2.2.2 [] caDefault rfl).1 rfl,
    (init_error_conditions.2.2.2 [] caDefault rfl).2 rfl,
    init_error_conditions.2.2.1 [] neoDefault rfl rfl⟩

/-- C9: `CloseApproach.time_str` is the literal `"n/a date"` exactly when
the stored `time` is `None` and otherwise the external formatter's output
for the stored time; `serialize`'s `datetime_utc` value is the empty string
exactly when `time` is `None` and otherwise that same formatted string. -/
theorem time_formatting_contract (c : CloseApproach) :
    (c.time_str = "n/a date" ↔ c.time = Option.none) ∧
      (∀ t, c.time = some t → c.time_str = datetime_to_str t) ∧
      (∀ s, c.serialize = some s →
        (s.datetime_utc = "" ↔ c.time = Option.none) ∧
          (∀ t, c.time = some t → s.datetime_utc = datetime_to_str t)) := by
  obtain ⟨d, t, dst, v, ne⟩ := c
  refine ⟨?_, ?_, ?_⟩
  · cases t with
    | none => simp [CloseApproach.time_str, CloseApproach.time]
    | some t0 =>
      simp [CloseApproach.time_str, CloseApproach.time, datetime_to_str_ne_placeholder t0]
  · intro t0 ht
    simp only [CloseApproach.time] at ht
    subst ht
    rfl
  · intro s hs
    cases ne with
    | none => simp [CloseApproach.serialize, CloseApproach.neo] at hs
    | some m =>
      simp only [CloseApproach.serialize, CloseApproach.neo, CloseApproach.time,
        CloseApproach.distance, CloseApproach.velocity, Option.some.injEq] at hs
      subst hs
      cases t with
      | none => simp [CloseApproach.time]
      | some t0 =>
        constructor
        · simp [CloseApproach.time, datetime_to_str_ne_empty t0]
        · intro t1 ht
          simp only [CloseApproach.time, Option.some.injEq] at ht
          rw [← ht]

theorem time_formatting_contract_witness :
    caLinked.time_str = datetime_to_str ⟨2020, 1, 1, 12, 0⟩ ∧
      (caUnlinked.time_str = "n/a date" ↔ caUnlinked.time = Option.none) ∧
      ("2020-01-01 12:00" : String) = datetime_to_str ⟨2020, 1, 1, 12, 0⟩ :=
  ⟨(time_formatting_contract caLinked).2.1 ⟨2020, 1, 1, 12, 0⟩ rfl,
    (time_formatting_contract caUnlinked).1,
    ((time_formatting_contract caLinked).2.2
      { datetime_utc := "2020-01-01 12:00"
        distance_au := PFloat.finite 1
        velocity_km_s := PFloat.finite 2
        neo := { designation := "433", name := "Eros", diameter_km := PFloat.nan,
                 potentially_hazardous := false } } rfl).2 ⟨2020, 1, 1, 12, 0⟩ rfl⟩

/-- C10: construction and every derived accessor are deterministic — the
constructors depend only on the keyword mapping's contents, and on entities
with equal stored fields every accessor (`fullname`, `serialize`,
`time_str`, the `__str__` string, the `__repr__` string) returns equal
outputs (the two external date helpers being modelled as pure functions). -/
theorem construction_accessors_deterministic :
    (∀ k1 k2 : Kwargs, (∀ s, Kwargs.get k1 s = Kwargs.get k2 s) →
        NearEarthObject.init k1 = NearEarthObject.init k2) ∧
      (∀ k1 k2 : Kwargs, (∀ s, Kwargs.get k1 s = Kwargs.get k2 s) →
        CloseApproach.init k1 = CloseApproach.init k2) ∧
      (∀ n1 n2 : NearEarthObject,
        n1.designation = n2.designation → n1.name = n2.name → n1.diameter = n2.diameter →
          n1.hazardous = n2.hazardous → n1.approaches = n2.approaches →
          n1.fullname = n2.fullname ∧ n1.serialize = n2.serialize ∧
            n1.str_ = n2.str_ ∧ n1.repr_ = n2.repr_) ∧
      (∀ c1 c2 : CloseApproach,
        c1._designation = c2._designation → c1.time = c2.time → c1.distance = c2.distance →
          c1.velocity = c2.velocity → c1.neo = c2.neo →
          c1.time_str = c2.time_str ∧ c1.fullname = c2.fullname ∧
            c1.serialize = c2.serialize ∧ c1.str_ = c2.str_ ∧ c1.repr_ = c2.repr_) := by
  refine ⟨?_, ?_, ?_, ?_⟩
  · intro k1 k2 h
    unfold NearEarthObject.init
    simp only [h]
  · intro k1 k2 h
    unfold CloseApproach.init
    simp only [h]
  · intro n1 n2 h1 h2 h3 h4 h5
    obtain ⟨d1, nm1, di1, hz1, ap1⟩ := n1
    obtain ⟨d2, nm2, di2, hz2, ap2⟩ := n2
    simp only [NearEarthObject.designation] at h1
    simp only [NearEarthObject.name] at h2
    simp only [NearEarthObject.diameter] at h3
    simp only [NearEarthObject.hazardous] at h4
    simp only [NearEarthObject.approaches] at h5
    subst h1 h2 h3 h4 h5
    exact ⟨rfl, rfl, rfl, rfl⟩
  · intro c1 c2 h1 h2 h3 h4 h5
    obtain ⟨d1, t1, dst1, v1, ne1⟩ := c1
    obtain ⟨d2, t2, dst2, v2, ne2⟩ := c2
    simp only [CloseApproach._designation] at h1
    simp only [CloseApproach.time] at h2
    simp only [CloseApproach.distance] at h3
    simp only [CloseApproach.velocity] at h4
    simp only [CloseApproach.neo] at h5
    subst h1 h2 h3 h4 h5
    exact ⟨rfl, rfl, rfl, rfl, rfl⟩

theorem construction_accessors_deterministic_witness :
    NearEarthObject.init [] = NearEarthObject.init [] ∧
      (neo433Eros.fullname = neo433Eros.fullname ∧
        neo433Eros.serialize = neo433Eros.serialize ∧
        neo433Eros.str_ = neo433Eros.str_ ∧ neo433Eros.repr_ = neo433Eros.repr_) ∧
      (caLinked.time_str = caLinked.time_str ∧ caLinked.fullname = caLinked.fullname ∧
        caLinked.serialize = caLinked.serialize ∧ caLinked.str_ = caLinked.str_ ∧
        caLinked.repr_ = caLinked.repr_) :=
  ⟨construction_accessors_deterministic.1 [] [] (fun _ => rfl),
    construction_accessors_deterministic.2.2.1 neo433Eros neo433Eros rfl rfl rfl rfl rfl,
    construction_accessors_deterministic.2.2.2 caLinked caLinked rfl rfl rfl rfl rfl⟩

end NeoModels
